import Mathlib

/-!
Shallow embedding of the realtime speech service of `voice-ai-chat`
(`src/server/src/services/realtimeService.ts` and
`src/server/src/routes/speechRealtime.ts`).

Bytes are modelled as `Nat` values; buffers as `List Nat`.  Machine
writes (`Buffer.writeUInt32LE` / `writeUInt16LE`) are modelled with
explicit `% 2^32` / `% 2^16` byte decompositions.  Base64-encoded audio
payloads are modelled by the byte sequences they denote.
-/

namespace VoiceAiChat

/-- Little-endian byte image stored by a successful `Buffer.writeUInt32LE`
of an in-range value (the write itself, including its `ERR_OUT_OF_RANGE`
failure path, is `writeUInt32LE` below). -/
def u32le (v : Nat) : List Nat :=
  [v % 256, v / 256 % 256, v / 65536 % 256, v / 16777216 % 256]

/-- Little-endian byte image stored by a successful `Buffer.writeUInt16LE`
of an in-range value. -/
def u16le (v : Nat) : List Nat :=
  [v % 256, v / 256 % 256]

/-- `Buffer.writeUInt32LE`: stores the little-endian bytes of an in-range
integer value; a value outside `[0, 2^32)` throws `ERR_OUT_OF_RANGE`
(`none`). -/
def writeUInt32LE (v : Nat) : Option (List Nat) :=
  if v < 4294967296 then some (u32le v) else none

/-- `Buffer.writeUInt16LE`: stores the little-endian bytes of an in-range
integer value; a value outside `[0, 2^16)` throws `ERR_OUT_OF_RANGE`
(`none`). -/
def writeUInt16LE (v : Nat) : Option (List Nat) :=
  if v < 65536 then some (u16le v) else none

/-- JavaScript float division by 8 feeding a buffer write: the write
accepts the value only when it is an integer, i.e. when 8 divides the
numerator; a fractional result makes the write throw (`none`). -/
def floatDiv8 (n : Nat) : Option Nat :=
  if n % 8 = 0 then some (n / 8) else none

/-- Read back the 32-bit little-endian value at offset `off`. -/
def readU32LE (l : List Nat) (off : Nat) : Nat :=
  l.getD off 0 + 256 * l.getD (off + 1) 0 + 65536 * l.getD (off + 2) 0 +
    16777216 * l.getD (off + 3) 0

/-- Read back the 16-bit little-endian value at offset `off`. -/
def readU16LE (l : List Nat) (off : Nat) : Nat :=
  l.getD off 0 + 256 * l.getD (off + 1) 0

/-- The 44 header bytes laid down when every write of `createWavHeader`
succeeds.  ASCII bytes: `RIFF` = 82,73,70,70; `WAVE` = 87,65,86,69;
`fmt ` = 102,109,116,32; `data` = 100,97,116,97. -/
def wavHeaderBytes (dataLength : Nat) (sampleRate : Nat := 24000)
    (numChannels : Nat := 1) (bitsPerSample : Nat := 16) : List Nat :=
  [82, 73, 70, 70] ++ u32le (36 + dataLength) ++ [87, 65, 86, 69] ++
  [102, 109, 116, 32] ++ u32le 16 ++ u16le 1 ++ u16le numChannels ++
  u32le sampleRate ++ u32le (sampleRate * numChannels * bitsPerSample / 8) ++
  u16le (numChannels * bitsPerSample / 8) ++ u16le bitsPerSample ++
  [100, 97, 116, 97] ++ u32le dataLength

/-- `createWavHeader` from `realtimeService.ts` (lines 16–44), writes in
source order: any out-of-range or fractional field value makes the
corresponding `Buffer.write…` call throw `ERR_OUT_OF_RANGE`, modelled as
`none`. -/
def createWavHeader (dataLength : Nat) (sampleRate : Nat := 24000)
    (numChannels : Nat := 1) (bitsPerSample : Nat := 16) :
    Option (List Nat) := do
  let b4 ← writeUInt32LE (36 + dataLength)
  let b16 ← writeUInt32LE 16
  let b20 ← writeUInt16LE 1
  let b22 ← writeUInt16LE numChannels
  let b24 ← writeUInt32LE sampleRate
  let byteRate ← floatDiv8 (sampleRate * numChannels * bitsPerSample)
  let b28 ← writeUInt32LE byteRate
  let blockAlign ← floatDiv8 (numChannels * bitsPerSample)
  let b32 ← writeUInt16LE blockAlign
  let b34 ← writeUInt16LE bitsPerSample
  let b40 ← writeUInt32LE dataLength
  return [82, 73, 70, 70] ++ b4 ++ [87, 65, 86, 69] ++ [102, 109, 116, 32] ++
    b16 ++ b20 ++ b22 ++ b24 ++ b28 ++ b32 ++ b34 ++ [100, 97, 116, 97] ++ b40

/-- WAV framing as performed at the end of `synthesizeSpeechRealtime`:
the success-path header bytes followed by the PCM bytes unmodified (that
call passes the in-range constants 24000 Hz, mono, 16-bit; `C1_wav_framer`
relates this success image to the guarded `createWavHeader`). -/
def frame (pcmBytes : List Nat) (sampleRate : Nat := 24000)
    (numChannels : Nat := 1) (bitsPerSample : Nat := 16) : List Nat :=
  wavHeaderBytes pcmBytes.length sampleRate numChannels bitsPerSample ++ pcmBytes

/-- `VOICE_MAP` from `realtimeService.ts` (lines 63–83), in source order. -/
def VOICE_MAP : List (String × String) :=
  [("Male", "echo"), ("Female", "alloy"),
   ("JennyNeural", "alloy"), ("GuyNeural", "echo"), ("AriaNeural", "nova"),
   ("DavisNeural", "onyx"), ("JaneNeural", "shimmer"), ("JasonNeural", "fable"),
   ("alloy", "alloy"), ("echo", "echo"), ("fable", "fable"),
   ("onyx", "onyx"), ("nova", "nova"), ("shimmer", "shimmer")]

/-- Exact, case-sensitive lookup of the OWN entries of the `VOICE_MAP`
object literal (no prototype chain); full JS bracket access is
`voiceMapGet` below. -/
def lookupVoice (k : String) : Option String :=
  VOICE_MAP.lookup k

/-- A JavaScript value obtained by bracket access on the `VOICE_MAP`
object literal: either one of its own string entries, or a member
inherited from `Object.prototype` (a function or object, never a voice
token), or `undefined`. -/
inductive JsValue : Type
  | str (s : String) : JsValue
  | inherited (name : String) : JsValue
  | undef : JsValue
deriving DecidableEq

/-- The standard `Object.prototype` member names inherited by every plain
JS object literal; bracket access with one of these keys yields a truthy
function/object instead of `undefined`. -/
def protoKeys : List String :=
  ["constructor", "hasOwnProperty", "isPrototypeOf", "propertyIsEnumerable",
   "toLocaleString", "toString", "valueOf", "__proto__", "__defineGetter__",
   "__defineSetter__", "__lookupGetter__", "__lookupSetter__"]

/-- JS bracket access `VOICE_MAP[k]`: an own entry yields its token
string; otherwise a standard `Object.prototype` member is found on the
prototype chain; otherwise `undefined`. -/
def voiceMapGet (k : String) : JsValue :=
  match lookupVoice k with
  | some v => JsValue.str v
  | none => if k ∈ protoKeys then JsValue.inherited k else JsValue.undef

/-- JavaScript truthiness of an optional string argument:
`undefined` and the empty string are falsy. -/
def jsTruthy : Option String → Bool
  | none => false
  | some s => s ≠ ""

/-- JavaScript truthiness of an accessed property value: a string is
truthy iff non-empty; inherited functions/objects are truthy; `undefined`
is falsy. -/
def jsTruthyVal : JsValue → Bool
  | JsValue.str s => s ≠ ""
  | JsValue.inherited _ => true
  | JsValue.undef => false

/-- Voice selection logic shared by `synthesizeSpeechRealtime`
(lines 390–396): `if (voiceName && VOICE_MAP[voiceName]) … else if
(voiceGender && VOICE_MAP[voiceGender]) … else 'alloy'`.  A branch is
taken whenever the argument is truthy and the bracket access yields a
truthy value — including inherited `Object.prototype` members, which are
then assigned to `selectedVoice` even though they are not voice tokens. -/
def resolveVoice (voiceName voiceGender : Option String) : JsValue :=
  if jsTruthy voiceName && jsTruthyVal (voiceMapGet (voiceName.getD "")) then
    voiceMapGet (voiceName.getD "")
  else if jsTruthy voiceGender && jsTruthyVal (voiceMapGet (voiceGender.getD "")) then
    voiceMapGet (voiceGender.getD "")
  else
    JsValue.str "alloy"

/-- The six destination-provider voice tokens. -/
def realtimeVoices : List String :=
  ["alloy", "echo", "fable", "onyx", "nova", "shimmer"]

/-- Inbound provider events, dispatched by their JSON `type` string.
Base64-encoded audio payloads are modelled by the byte sequences they
denote; transcription payloads by their text. -/
inductive REvent : Type
  | sessionCreated : REvent
  | sessionUpdated : REvent
  | audioDelta (chunk : List Nat) : REvent
  | transcriptionCompleted (transcript : String) : REvent
  | responseDone : REvent
  | other (ty : String) : REvent
deriving DecidableEq

/-- Outbound protocol commands passed to `connection.send`. -/
inductive RCommand : Type
  | conversationItemCreate (text : String) : RCommand
  | responseCreate : RCommand
  | inputAudioBufferAppend (audio : String) : RCommand
  | inputAudioBufferCommit : RCommand
deriving DecidableEq

deriving instance DecidableEq for Except

def isSessionCreated : REvent → Bool
  | .sessionCreated => true
  | _ => false

def isAudioDelta : REvent → Bool
  | .audioDelta _ => true
  | _ => false

/-- Observable outcome of the connection-open phase. -/
structure OpenOutcome where
  result : Except String Unit
  transportClosed : Bool
  elapsedMs : Nat
deriving DecidableEq

/-- `createRealtimeClient` (`realtimeService.ts` lines 113–260), over the
scripted list of inbound provider events.  `isGAModel` selects the
protocol-family variant (manual WebSocket URL vs. client-library
handshake).  When the script delivers a `session.created` event the open
resolves (events are delivered promptly, before the deadline).  Otherwise
the 10-second `setTimeout` fires: the GA variant closes the socket before
rejecting (lines 197–200); the Preview variant only rejects
(lines 245–247), leaving the transport open. -/
def createRealtimeClient (isGAModel : Bool) (script : List REvent) : OpenOutcome :=
  if script.any isSessionCreated then
    { result := Except.ok (), transportClosed := false, elapsedMs := 0 }
  else if isGAModel then
    { result := Except.error
        "WebSocket connection timeout - did not receive session.created",
      transportClosed := true, elapsedMs := 10000 }
  else
    { result := Except.error "WebSocket connection timeout",
      transportClosed := false, elapsedMs := 10000 }

/-- Fuel-indexed model of one busy-poll loop
`while (!flag && elapsed < timeoutMs) await sleep(intervalMs)`.
For a positive interval, fuel `timeoutMs / intervalMs + 1` is enough that
the fuel never runs out, so the fuel bound is not observable. -/
def pollLoopFuel (timeoutMs intervalMs : Nat) (flag : Bool) :
    Nat → Nat → Nat
  | 0, elapsed => elapsed
  | fuel + 1, elapsed =>
    if flag = false ∧ elapsed < timeoutMs then
      pollLoopFuel timeoutMs intervalMs flag fuel (elapsed + intervalMs)
    else elapsed

/-- Idealized elapsed waiting time of the busy-poll loop: each iteration
sleeps exactly `intervalMs`; `flag` is the (already settled) completion
flag of the scripted run. -/
def pollElapsed (flag : Bool) (timeoutMs intervalMs : Nat) : Nat :=
  pollLoopFuel timeoutMs intervalMs flag (timeoutMs / intervalMs + 1) 0

/-- The synthesis job state mutated by the registered event handlers. -/
structure SynthJob where
  audioChunks : List (List Nat)
  responseDone : Bool
deriving DecidableEq

/-- Handler dispatch for the non-streaming TTS path:
`response.output_audio.delta` appends the decoded chunk (lines 410–415),
`response.done` sets the completion flag (lines 417–420); every other
event (including the `server.*` debug log) leaves the job unchanged. -/
def handleTTSEvent (s : SynthJob) (e : REvent) : SynthJob :=
  match e with
  | .audioDelta chunk => { s with audioChunks := s.audioChunks ++ [chunk] }
  | .responseDone => { s with responseDone := true }
  | _ => s

/-- `configureRealtimeSession` (lines 266–278): logs and resolves without
sending anything — the resolved voice is never transmitted. -/
def configureRealtimeSession (voice : JsValue) : List RCommand := []

/-- Observable outcome of one non-streaming `synthesizeSpeechRealtime`
call. -/
structure SynthOutcome where
  result : Except String (List Nat)
  commands : List RCommand
  selectedVoice : Option JsValue
  telemetryChars : Option Nat
  sessionOpened : Bool
  sessionClosed : Bool
  elapsedWaitMs : Nat
deriving DecidableEq

/-- `synthesizeSpeechRealtime` (lines 373–481) over a scripted session:
`script` is the list of inbound provider events delivered after the
connection is ready.  Empty text throws before any session is opened and
before telemetry is recorded.  Otherwise the resolved voice is computed,
the two protocol commands are sent, the handlers accumulate chunks, and
the 30-second / 100 ms poll loop either observes the completion flag and
returns the WAV-framed concatenation, or times out; the `finally` block
closes the session on both paths. -/
def synthesizeSpeechRealtime (text : String) (voiceName voiceGender : Option String)
    (script : List REvent) : SynthOutcome :=
  if text = "" then
    { result := Except.error "No text provided for synthesis",
      commands := [], selectedVoice := none, telemetryChars := none,
      sessionOpened := false, sessionClosed := false, elapsedWaitMs := 0 }
  else
    let selectedVoice := resolveVoice voiceName voiceGender
    let job := script.foldl handleTTSEvent { audioChunks := [], responseDone := false }
    let elapsed := pollElapsed job.responseDone 30000 100
    if job.responseDone then
      { result := Except.ok (frame job.audioChunks.flatten 24000 1 16),
        commands := configureRealtimeSession selectedVoice ++
          [RCommand.conversationItemCreate text, RCommand.responseCreate],
        selectedVoice := some selectedVoice,
        telemetryChars := some text.length,
        sessionOpened := true, sessionClosed := true, elapsedWaitMs := elapsed }
    else
      { result := Except.error
          "Speech synthesis failed: Synthesis timeout - no response received",
        commands := configureRealtimeSession selectedVoice ++
          [RCommand.conversationItemCreate text, RCommand.responseCreate],
        selectedVoice := some selectedVoice,
        telemetryChars := some text.length,
        sessionOpened := true, sessionClosed := true, elapsedWaitMs := elapsed }

/-- The recognition job state mutated by the registered event handlers. -/
structure RecogJob where
  sessionConfigured : Bool
  transcriptText : String
deriving DecidableEq

/-- Handler dispatch for the STT path: `session.updated` sets the
configured flag (lines 308–311);
`conversation.item.input_audio_transcription.completed` records the
transcript (lines 314–317). -/
def handleSTTEvent (s : RecogJob) (e : REvent) : RecogJob :=
  match e with
  | .sessionUpdated => { s with sessionConfigured := true }
  | .transcriptionCompleted t => { s with transcriptText := t }
  | _ => s

/-- Observable outcome of one terminating `recognizeSpeechRealtime` call. -/
structure RecogOutcome where
  result : Except String String
  commands : List RCommand
  sessionOpened : Bool
  sessionClosed : Bool
  elapsedWaitMs : Nat
deriving DecidableEq

/-- `recognizeSpeechRealtime` (lines 286–363) over a scripted session.
The result is `none` when the call diverges: after
`configureRealtimeSession` (which sends no `session.update`), the code
waits in `while (!sessionConfigured) await sleep(50)` with no deadline
(lines 323–325), so if the script never delivers `session.updated` the
loop never exits.  On the terminating paths the audio is appended and
committed, and the 10-second / 100 ms poll loop returns the transcript or
times out; the `finally` block closes the session. -/
def recognizeSpeechRealtime (audioData : String) (script : List REvent) :
    Option RecogOutcome :=
  if audioData = "" then
    some { result := Except.error "No audio data provided", commands := [],
           sessionOpened := false, sessionClosed := false, elapsedWaitMs := 0 }
  else
    let job := script.foldl handleSTTEvent
      { sessionConfigured := false, transcriptText := "" }
    if job.sessionConfigured = false then
      none
    else if job.transcriptText ≠ "" then
      some { result := Except.ok job.transcriptText,
             commands := [RCommand.inputAudioBufferAppend audioData,
               RCommand.inputAudioBufferCommit],
             sessionOpened := true, sessionClosed := true,
             elapsedWaitMs := pollElapsed true 10000 100 }
    else
      some { result := Except.error
               "Speech recognition failed: Transcription timeout - no response received",
             commands := [RCommand.inputAudioBufferAppend audioData,
               RCommand.inputAudioBufferCommit],
             sessionOpened := true, sessionClosed := true,
             elapsedWaitMs := pollElapsed false 10000 100 }

/-- `router.post('/synthesize')` from `speechRealtime.ts` (lines 51–60):
the body fields are destructured as `{ text, voiceGender, voiceName }` and
the service is called as `synthesizeSpeechRealtime(text, voiceGender,
voiceName)` — `voiceGender` is passed in the `voiceName` parameter
position and vice versa. -/
def routeSynthesize (text : String) (voiceName voiceGender : Option String)
    (script : List REvent) : SynthOutcome :=
  synthesizeSpeechRealtime text voiceGender voiceName script

lemma u32_roundtrip (v : Nat) (h : v < 4294967296) :
    v % 256 + 256 * (v / 256 % 256) + 65536 * (v / 65536 % 256) +
      16777216 * (v / 16777216 % 256) = v := by
  omega

lemma u16_roundtrip (v : Nat) (h : v < 65536) :
    v % 256 + 256 * (v / 256 % 256) = v := by
  omega

lemma lookup_val_mem (l : List (String × String)) (k v : String)
    (h : l.lookup k = some v) : v ∈ l.map Prod.snd := by
  induction l with
  | nil => simp [List.lookup] at h
  | cons a t ih =>
    rw [List.lookup] at h
    by_cases hk : k == a.1
    · rw [hk] at h
      simp at h
      simp [← h]
    · simp only [Bool.not_eq_true] at hk
      rw [hk] at h
      exact List.mem_cons_of_mem _ (ih h)

/-- Every value of `VOICE_MAP` is one of the six realtime voice tokens. -/
lemma voice_map_values : ∀ v ∈ VOICE_MAP.map Prod.snd, v ∈ realtimeVoices := by
  decide

/-- The empty string is not a key of `VOICE_MAP`. -/
lemma lookupVoice_empty : lookupVoice "" = none := by decide

/-- Every mapped token is non-empty (hence truthy). -/
lemma lookupVoice_val_ne (n v : String) (h : lookupVoice n = some v) :
    v ≠ "" := by
  have hm := voice_map_values v (lookup_val_mem VOICE_MAP n v h)
  intro he
  rw [he] at hm
  exact absurd hm (by decide)

/-- A key that is neither an own entry nor an inherited member yields
`undefined`. -/
lemma voiceMapGet_undef (k : String) (hl : lookupVoice k = none)
    (hp : k ∉ protoKeys) : voiceMapGet k = JsValue.undef := by
  simp [voiceMapGet, hl, hp]

/-- A truthy bracket access on a non-prototype key is an own token. -/
lemma voiceMapGet_truthy_not_proto (k : String) (hp : k ∉ protoKeys)
    (ht : jsTruthyVal (voiceMapGet k) = true) :
    ∃ t ∈ realtimeVoices, voiceMapGet k = JsValue.str t := by
  cases hl : lookupVoice k with
  | some v =>
    exact ⟨v, voice_map_values v (lookup_val_mem VOICE_MAP k v hl),
      by simp [voiceMapGet, hl]⟩
  | none =>
    rw [voiceMapGet_undef k hl hp] at ht
    exact absurd ht (by decide)

/-- A successful own-entry name lookup wins regardless of the gender
fallback. -/
lemma resolveVoice_name_found (n : String) (g : Option String) (v : String)
    (h : lookupVoice n = some v) : resolveVoice (some n) g = JsValue.str v := by
  have hne : n ≠ "" := by
    intro he
    rw [he, lookupVoice_empty] at h
    cases h
  have hv : v ≠ "" := lookupVoice_val_ne n v h
  simp [resolveVoice, jsTruthy, jsTruthyVal, voiceMapGet, hne, h, hv]

lemma mul_mod_eight (a b : Nat) (h : b % 8 = 0) : a * b % 8 = 0 := by
  rw [Nat.mul_mod, h, Nat.mul_zero, Nat.zero_mod]

/-- Accumulating TTS events never sets the completion flag unless a
`response.done` event is delivered. -/
lemma foldl_responseDone_eq (script : List REvent) (s : SynthJob)
    (h : ∀ e ∈ script, e ≠ REvent.responseDone) :
    (script.foldl handleTTSEvent s).responseDone = s.responseDone := by
  induction script generalizing s with
  | nil => rfl
  | cons e t ih =>
    have he : e ≠ REvent.responseDone := h e (List.mem_cons_self e t)
    have hrest : ∀ x ∈ t, x ≠ REvent.responseDone :=
      fun x hx => h x (List.mem_cons_of_mem e hx)
    rw [List.foldl_cons, ih _ hrest]
    cases e <;> try rfl
    exact absurd rfl he

/-- Accumulating TTS events adds no chunk unless an audio-delta event is
delivered. -/
lemma foldl_audioChunks_eq (script : List REvent) (s : SynthJob)
    (h : ∀ e ∈ script, isAudioDelta e = false) :
    (script.foldl handleTTSEvent s).audioChunks = s.audioChunks := by
  induction script generalizing s with
  | nil => rfl
  | cons e t ih =>
    have he : isAudioDelta e = false := h e (List.mem_cons_self e t)
    have hrest : ∀ x ∈ t, isAudioDelta x = false :=
      fun x hx => h x (List.mem_cons_of_mem e hx)
    rw [List.foldl_cons, ih _ hrest]
    cases e <;> try rfl
    simp [isAudioDelta] at he

/-- Once the completion flag is set, later events never clear it. -/
lemma foldl_responseDone_mono (script : List REvent) (s : SynthJob)
    (h : s.responseDone = true) :
    (script.foldl handleTTSEvent s).responseDone = true := by
  induction script generalizing s with
  | nil => exact h
  | cons e t ih =>
    rw [List.foldl_cons]
    apply ih
    cases e <;> simp [handleTTSEvent, h]

/-- Delivering a `response.done` event anywhere in the script settles the
completion flag. -/
lemma foldl_responseDone_of_mem :
    ∀ (script : List REvent) (s : SynthJob), REvent.responseDone ∈ script →
      (script.foldl handleTTSEvent s).responseDone = true := by
  intro script
  induction script with
  | nil => intro s h; cases h
  | cons e t ih =>
    intro s h
    rw [List.foldl_cons]
    rcases List.mem_cons.mp h with he | hmem
    · rw [← he]
      exact foldl_responseDone_mono t _ rfl
    · exact ih _ hmem

/-- A script with no `session.created` event fails the `any` scan. -/
lemma any_isSessionCreated_false (script : List REvent)
    (h : ∀ e ∈ script, e ≠ REvent.sessionCreated) :
    script.any isSessionCreated = false := by
  simp only [List.any_eq_false]
  intro e he
  cases e <;> simp [isSessionCreated]
  exact absurd rfl (h _ he)

/-- An immediately-set flag exits the poll loop with no elapsed time. -/
lemma pollElapsed_true (t i : Nat) : pollElapsed true t i = 0 := by
  simp [pollElapsed, pollLoopFuel]

set_option maxRecDepth 8000 in
/-- The synthesis poll loop exits exactly at the 30-second deadline when
the flag never becomes true. -/
lemma pollElapsed_false_30000 : pollElapsed false 30000 100 = 30000 := by decide

set_option maxRecDepth 8000 in
/-- The recognition poll loop exits exactly at the 10-second deadline when
the flag never becomes true. -/
lemma pollElapsed_false_10000 : pollElapsed false 10000 100 = 10000 := by decide

/-- `C1`: for every PCM byte sequence and every (rate, channels, bits)
triple with `bits` a multiple of 8 and every written field in the range
its `Buffer.write…` call accepts (out-of-range values throw
`ERR_OUT_OF_RANGE` and are excluded by hypothesis), `createWavHeader`
succeeds with exactly the 44 header bytes, and `frame` is that header
followed by the PCM bytes unmodified: output length `44 + len(p)`,
bytes 0–3 `"RIFF"`, bytes 8–11 `"WAVE"`, 32-bit LE field at offset 4
equal to `36 + len(p)`, 16-bit field at offset 20 equal to 1, 32-bit
field at offset 28 equal to `rate*channels*bits/8`, 16-bit field at
offset 32 equal to `channels*bits/8`, and 32-bit field at offset 40
equal to `len(p)`. -/
theorem C1_wav_framer (p : List Nat) (sampleRate numChannels bitsPerSample : Nat)
    (hbits : bitsPerSample % 8 = 0)
    (hlen : 36 + p.length < 4294967296)
    (hsr : sampleRate < 4294967296)
    (hch : numChannels < 65536)
    (hbs : bitsPerSample < 65536)
    (hrate : sampleRate * numChannels * bitsPerSample / 8 < 4294967296)
    (halign : numChannels * bitsPerSample / 8 < 65536) :
    createWavHeader p.length sampleRate numChannels bitsPerSample =
      some (wavHeaderBytes p.length sampleRate numChannels bitsPerSample) ∧
    frame p sampleRate numChannels bitsPerSample =
      wavHeaderBytes p.length sampleRate numChannels bitsPerSample ++ p ∧
    (frame p sampleRate numChannels bitsPerSample).length = 44 + p.length ∧
    (frame p sampleRate numChannels bitsPerSample).take 44 =
      wavHeaderBytes p.length sampleRate numChannels bitsPerSample ∧
    (frame p sampleRate numChannels bitsPerSample).drop 44 = p ∧
    (frame p sampleRate numChannels bitsPerSample).take 4 = [82, 73, 70, 70] ∧
    ((frame p sampleRate numChannels bitsPerSample).drop 8).take 4 =
      [87, 65, 86, 69] ∧
    readU32LE (frame p sampleRate numChannels bitsPerSample) 4 = 36 + p.length ∧
    readU16LE (frame p sampleRate numChannels bitsPerSample) 20 = 1 ∧
    readU32LE (frame p sampleRate numChannels bitsPerSample) 28 =
      sampleRate * numChannels * bitsPerSample / 8 ∧
    readU16LE (frame p sampleRate numChannels bitsPerSample) 32 =
      numChannels * bitsPerSample / 8 ∧
    readU32LE (frame p sampleRate numChannels bitsPerSample) 40 = p.length := by
  have hd1 : sampleRate * numChannels * bitsPerSample % 8 = 0 :=
    mul_mod_eight (sampleRate * numChannels) bitsPerSample hbits
  have hd2 : numChannels * bitsPerSample % 8 = 0 :=
    mul_mod_eight numChannels bitsPerSample hbits
  have hlen' : p.length < 4294967296 := by omega
  refine ⟨?_, rfl, ?_, ?_, ?_, ?_, ?_, ?_, ?_, ?_, ?_, ?_⟩
  · simp [createWavHeader, writeUInt32LE, writeUInt16LE, floatDiv8,
      wavHeaderBytes, hlen, hlen', hsr, hch, hbs, hrate, halign, hd1, hd2]
  · simp [frame, wavHeaderBytes, u32le, u16le]
    omega
  · simp [frame, wavHeaderBytes, u32le, u16le]
  · simp [frame, wavHeaderBytes, u32le, u16le]
  · simp [frame, wavHeaderBytes, u32le, u16le]
  · simp [frame, wavHeaderBytes, u32le, u16le]
  · simp [frame, wavHeaderBytes, u32le, u16le, readU32LE]
    omega
  · simp [frame, wavHeaderBytes, u32le, u16le, readU16LE]
  · simp [frame, wavHeaderBytes, u32le, u16le, readU32LE]
    exact u32_roundtrip _ hrate
  · simp [frame, wavHeaderBytes, u32le, u16le, readU16LE]
    exact u16_roundtrip _ halign
  · simp [frame, wavHeaderBytes, u32le, u16le, readU32LE]
    omega

/-- Witness for `C1_wav_framer` at the concrete input `p = [1,2,3]`,
24000 Hz, mono, 16-bit. -/
theorem C1_wav_framer_witness :
    (16 % 8 = 0 ∧ 36 + ([1, 2, 3] : List Nat).length < 4294967296 ∧
      24000 < 4294967296 ∧ 1 < 65536 ∧ 16 < 65536 ∧
      24000 * 1 * 16 / 8 < 4294967296 ∧ 1 * 16 / 8 < 65536) ∧
    createWavHeader ([1, 2, 3] : List Nat).length 24000 1 16 =
      some (wavHeaderBytes ([1, 2, 3] : List Nat).length 24000 1 16) ∧
    (frame [1, 2, 3] 24000 1 16).length = 44 + ([1, 2, 3] : List Nat).length ∧
    readU32LE (frame [1, 2, 3] 24000 1 16) 40 = ([1, 2, 3] : List Nat).length ∧
    (frame [1, 2, 3] 24000 1 16).drop 44 = [1, 2, 3] := by
  have h := C1_wav_framer [1, 2, 3] 24000 1 16 (by decide) (by decide)
    (by decide) (by decide) (by decide) (by decide) (by decide)
  exact ⟨⟨by decide, by decide, by decide, by decide, by decide, by decide,
    by decide⟩, h.1, h.2.2.1, h.2.2.2.2.2.2.2.2.2.2.2, h.2.2.2.2.1⟩

/-- `C3` counterexample, two concrete refutations.  First, the gender
keys of `VOICE_MAP` are capitalized (`"Male"`, `"Female"`): the lowercase
string `"female"` is not a key, so there is no token mapped for it and
`resolve(undefined, "female")` falls through to the fixed default
`"alloy"` rather than returning a gender-fallback match.  Second, the
operation does not always return a valid destination token: bracket
access on the object literal consults the prototype chain, so
`resolve("toString", anything)` selects the truthy inherited
`Object.prototype.toString` member, which is none of the six voice
tokens. -/
theorem C3_voice_resolution_counterexample :
    lookupVoice "female" = none ∧
    lookupVoice "Female" = some "alloy" ∧
    resolveVoice none (some "female") = JsValue.str "alloy" ∧
    lookupVoice "toString" = none ∧
    voiceMapGet "toString" = JsValue.inherited "toString" ∧
    resolveVoice (some "toString") none = JsValue.inherited "toString" ∧
    (∀ t ∈ realtimeVoices, JsValue.inherited "toString" ≠ JsValue.str t) := by
  decide

/-- `C3` (amended): voice resolution is a case-sensitive exact lookup with
order name-match, then gender-fallback match, then the fixed default
`"alloy"`; `resolve("JennyNeural", undefined)` returns the token mapped
for `"JennyNeural"`, `resolve(undefined, "Female")` (capitalized, the
actual gender key) returns the token mapped for `"Female"`,
`resolve(undefined, "female")` returns the default since `"female"` is
not a key, and `resolve("unknown-name", "unknown-gender")` returns the
default; the operation never fails, and it returns one of the six
destination tokens provided neither argument is an inherited
`Object.prototype` member name (for such an argument the truthy inherited
member is selected instead of a token). -/
theorem C3_voice_resolution :
    (∀ (n : String) (g : Option String) (v : String),
      lookupVoice n = some v → resolveVoice (some n) g = JsValue.str v) ∧
    (∀ (n g v : String), lookupVoice n = none → n ∉ protoKeys →
      lookupVoice g = some v →
      resolveVoice (some n) (some g) = JsValue.str v) ∧
    (∀ (g v : String), lookupVoice g = some v →
      resolveVoice none (some g) = JsValue.str v) ∧
    (∀ (n g : String), lookupVoice n = none → n ∉ protoKeys →
      lookupVoice g = none → g ∉ protoKeys →
      resolveVoice (some n) (some g) = JsValue.str "alloy") ∧
    lookupVoice "JennyNeural" = some "alloy" ∧
    resolveVoice (some "JennyNeural") none = JsValue.str "alloy" ∧
    resolveVoice none (some "Female") = JsValue.str "alloy" ∧
    resolveVoice none (some "female") = JsValue.str "alloy" ∧
    resolveVoice (some "unknown-name") (some "unknown-gender") =
      JsValue.str "alloy" ∧
    (∀ (n g : Option String), (∀ s, n = some s → s ∉ protoKeys) →
      (∀ s, g = some s → s ∉ protoKeys) →
      ∃ t ∈ realtimeVoices, resolveVoice n g = JsValue.str t) := by
  refine ⟨?_, ?_, ?_, ?_, by decide, by decide, by decide, by decide,
    by decide, ?_⟩
  · exact resolveVoice_name_found
  · intro n g v hn hp hg
    have hgne : g ≠ "" := by
      intro he
      rw [he, lookupVoice_empty] at hg
      cases hg
    have hv : v ≠ "" := lookupVoice_val_ne g v hg
    simp [resolveVoice, jsTruthy, jsTruthyVal, voiceMapGet, hn, hp, hg,
      hgne, hv]
  · intro g v hg
    have hgne : g ≠ "" := by
      intro he
      rw [he, lookupVoice_empty] at hg
      cases hg
    have hv : v ≠ "" := lookupVoice_val_ne g v hg
    simp [resolveVoice, jsTruthy, jsTruthyVal, voiceMapGet, hg, hgne, hv]
  · intro n g hn hpn hg hpg
    simp [resolveVoice, jsTruthy, jsTruthyVal, voiceMapGet, hn, hpn, hg, hpg]
  · intro n g hn hg
    have hn' : n.getD "" ∉ protoKeys := by
      cases n with
      | none => decide
      | some s => exact hn s rfl
    have hg' : g.getD "" ∉ protoKeys := by
      cases g with
      | none => decide
      | some s => exact hg s rfl
    unfold resolveVoice
    split
    · next h1 =>
      exact voiceMapGet_truthy_not_proto _ hn' (Bool.and_elim_right h1)
    · split
      · next h2 =>
        exact voiceMapGet_truthy_not_proto _ hg' (Bool.and_elim_right h2)
      · exact ⟨"alloy", by decide, rfl⟩

/-- Witness for `C3_voice_resolution`, discharging the lookup hypotheses at
the concrete key `"GuyNeural"`. -/
theorem C3_voice_resolution_witness :
    lookupVoice "GuyNeural" = some "echo" ∧
    resolveVoice (some "GuyNeural") none = JsValue.str "echo" :=
  ⟨by decide, C3_voice_resolution.1 "GuyNeural" none "echo" (by decide)⟩

/-- `C2`: delivering three audio-delta chunks of 100, 200 and 50 bytes
followed by a completion event makes the non-streaming synthesize path
succeed with a WAV buffer whose PCM portion (after the 44-byte header) is
exactly the 350-byte concatenation of the chunks in delivery order, with
no chunk lost or duplicated; one session is opened and closed. -/
theorem C2_synthesize_chunk_accumulation (text : String) (vn vg : Option String)
    (c1 c2 c3 : List Nat) (ht : text ≠ "")
    (h1 : c1.length = 100) (h2 : c2.length = 200) (h3 : c3.length = 50) :
    (synthesizeSpeechRealtime text vn vg
        [REvent.audioDelta c1, REvent.audioDelta c2, REvent.audioDelta c3,
         REvent.responseDone]).result =
      Except.ok (frame (c1 ++ c2 ++ c3) 24000 1 16) ∧
    (frame (c1 ++ c2 ++ c3) 24000 1 16).drop 44 = c1 ++ c2 ++ c3 ∧
    (c1 ++ c2 ++ c3).length = 350 ∧
    (frame (c1 ++ c2 ++ c3) 24000 1 16).length = 44 + 350 ∧
    (synthesizeSpeechRealtime text vn vg
        [REvent.audioDelta c1, REvent.audioDelta c2, REvent.audioDelta c3,
         REvent.responseDone]).sessionOpened = true ∧
    (synthesizeSpeechRealtime text vn vg
        [REvent.audioDelta c1, REvent.audioDelta c2, REvent.audioDelta c3,
         REvent.responseDone]).sessionClosed = true := by
  refine ⟨?_, ?_, ?_, ?_, ?_, ?_⟩
  · simp [synthesizeSpeechRealtime, ht, handleTTSEvent]
  · simp [frame, wavHeaderBytes, u32le, u16le]
  · simp [h1, h2, h3]
  · simp [frame, wavHeaderBytes, u32le, u16le, h1, h2, h3]
  · simp [synthesizeSpeechRealtime, ht, handleTTSEvent]
  · simp [synthesizeSpeechRealtime, ht, handleTTSEvent]

/-- Witness for `C2_synthesize_chunk_accumulation` at concrete chunks of
100, 200 and 50 zero bytes. -/
theorem C2_synthesize_chunk_accumulation_witness :
    (("hi" : String) ≠ "" ∧ (List.replicate 100 (0 : Nat)).length = 100 ∧
      (List.replicate 200 (0 : Nat)).length = 200 ∧
      (List.replicate 50 (0 : Nat)).length = 50) ∧
    (synthesizeSpeechRealtime "hi" none none
        [REvent.audioDelta (List.replicate 100 0),
         REvent.audioDelta (List.replicate 200 0),
         REvent.audioDelta (List.replicate 50 0), REvent.responseDone]).result =
      Except.ok (frame (List.replicate 100 0 ++ List.replicate 200 0 ++
        List.replicate 50 0) 24000 1 16) ∧
    (List.replicate 100 (0 : Nat) ++ List.replicate 200 0 ++
      List.replicate 50 0).length = 350 := by
  have h := C2_synthesize_chunk_accumulation "hi" none none
    (List.replicate 100 0) (List.replicate 200 0) (List.replicate 50 0)
    (by decide) (by rw [List.length_replicate]) (by rw [List.length_replicate])
    (by rw [List.length_replicate])
  exact ⟨⟨by decide, by rw [List.length_replicate], by rw [List.length_replicate],
    by rw [List.length_replicate]⟩, h.1, h.2.2.1⟩

/-- `C4`: empty-string inputs fail immediately with an input-validation
error before any session is opened — no commands are sent, no transport
is touched, and (for synthesize) no telemetry is recorded. -/
theorem C4_empty_input_validation :
    (∀ (vn vg : Option String) (script : List REvent),
      synthesizeSpeechRealtime "" vn vg script =
        { result := Except.error "No text provided for synthesis",
          commands := [], selectedVoice := none, telemetryChars := none,
          sessionOpened := false, sessionClosed := false, elapsedWaitMs := 0 }) ∧
    (∀ script : List REvent,
      recognizeSpeechRealtime "" script =
        some { result := Except.error "No audio data provided", commands := [],
               sessionOpened := false, sessionClosed := false,
               elapsedWaitMs := 0 }) :=
  ⟨fun _ _ _ => rfl, fun _ => rfl⟩

/-- `C5` counterexample: on a script with no `session.created` event, the
Preview-variant open times out but does NOT close the transport (only the
GA variant calls `socket.close()` before rejecting), refuting "the
underlying transport is closed on that failure path for both
protocol-family variants". -/
theorem C5_connect_timeout_counterexample :
    (createRealtimeClient false []).result =
      Except.error "WebSocket connection timeout" ∧
    (createRealtimeClient false []).transportClosed = false ∧
    (createRealtimeClient true []).transportClosed = true :=
  ⟨rfl, rfl, rfl⟩

/-- `C5` (amended): for every scripted event sequence that never delivers
a `session.created` event, `createRealtimeClient` fails with a
connection-timeout error at the 10-second deadline and never becomes
ready, for both protocol-family variants; the transport is closed on that
failure path by the GA variant only — the Preview variant rejects without
closing it. -/
theorem C5_connect_timeout (isGA : Bool) (script : List REvent)
    (h : ∀ e ∈ script, e ≠ REvent.sessionCreated) :
    (createRealtimeClient isGA script).result ≠ Except.ok () ∧
    (createRealtimeClient isGA script).elapsedMs = 10000 ∧
    (createRealtimeClient isGA script).transportClosed = isGA ∧
    (createRealtimeClient true script).result =
      Except.error "WebSocket connection timeout - did not receive session.created" ∧
    (createRealtimeClient false script).result =
      Except.error "WebSocket connection timeout" := by
  have hany := any_isSessionCreated_false script h
  cases isGA <;> simp [createRealtimeClient, hany]

/-- Witness for `C5_connect_timeout` at the concrete script
`[response.done]`, for both variants. -/
theorem C5_connect_timeout_witness :
    (∀ e ∈ ([REvent.responseDone] : List REvent), e ≠ REvent.sessionCreated) ∧
    (createRealtimeClient true [REvent.responseDone]).transportClosed = true ∧
    (createRealtimeClient false [REvent.responseDone]).transportClosed = false ∧
    (createRealtimeClient true [REvent.responseDone]).elapsedMs = 10000 := by
  have hh : ∀ e ∈ ([REvent.responseDone] : List REvent),
      e ≠ REvent.sessionCreated := by decide
  exact ⟨hh, (C5_connect_timeout true _ hh).2.2.1,
    (C5_connect_timeout false _ hh).2.2.1, (C5_connect_timeout true _ hh).2.1⟩

/-- `C6`: when no completion event is ever delivered, the non-streaming
synthesize path fails with the synthesis-timeout error, no earlier than
the 30-second deadline and no more than one 100 ms polling interval after
it, and the session is closed on that failure path. -/
theorem C6_synthesis_timeout (text : String) (vn vg : Option String)
    (script : List REvent) (ht : text ≠ "")
    (hnd : ∀ e ∈ script, e ≠ REvent.responseDone) :
    (synthesizeSpeechRealtime text vn vg script).result =
      Except.error "Speech synthesis failed: Synthesis timeout - no response received" ∧
    30000 ≤ (synthesizeSpeechRealtime text vn vg script).elapsedWaitMs ∧
    (synthesizeSpeechRealtime text vn vg script).elapsedWaitMs ≤ 30000 + 100 ∧
    (synthesizeSpeechRealtime text vn vg script).sessionClosed = true := by
  have hjob : (script.foldl handleTTSEvent
      { audioChunks := [], responseDone := false } : SynthJob).responseDone = false :=
    foldl_responseDone_eq script _ hnd
  refine ⟨?_, ?_, ?_, ?_⟩ <;>
    simp [synthesizeSpeechRealtime, ht, hjob, pollElapsed_false_30000]

/-- Witness for `C6_synthesis_timeout` at the empty script. -/
theorem C6_synthesis_timeout_witness :
    (("hello" : String) ≠ "" ∧
      (∀ e ∈ ([] : List REvent), e ≠ REvent.responseDone)) ∧
    (synthesizeSpeechRealtime "hello" none none []).result =
      Except.error "Speech synthesis failed: Synthesis timeout - no response received" ∧
    (synthesizeSpeechRealtime "hello" none none []).sessionClosed = true := by
  have h := C6_synthesis_timeout "hello" none none [] (by decide) (by simp)
  exact ⟨⟨by decide, by simp⟩, h.1, h.2.2.2⟩

/-- `C7` (code bug): with a non-empty audio input and a script that never
delivers a transcription-completed event, recognition is NOT guaranteed
to terminate: `configureRealtimeSession` never sends `session.update`, so
on a script with no `session.updated` event the unbounded
`while (!sessionConfigured)` wait diverges (first conjunct, `none`).
Only when a `session.updated` event is scripted does the call reach the
10-second transcript poll and fail with the recognition-timeout error at
the deadline (second conjunct). -/
theorem C7_recognize_divergence :
    recognizeSpeechRealtime "QUJD" [] = none ∧
    recognizeSpeechRealtime "QUJD" [REvent.sessionUpdated] =
      some { result := Except.error
               "Speech recognition failed: Transcription timeout - no response received",
             commands := [RCommand.inputAudioBufferAppend "QUJD",
               RCommand.inputAudioBufferCommit],
             sessionOpened := true, sessionClosed := true,
             elapsedWaitMs := 10000 } := by
  constructor
  · rfl
  · rfl

/-- `C8`: the `/synthesize` route passes `voiceGender` in the `voiceName`
parameter position and `voiceName` in the `voiceGender` position, so the
resolved voice is `resolveVoice voiceGender voiceName`; in particular,
whenever `voiceGender` is a key of the mapping table its token is
selected regardless of `voiceName`. -/
theorem C8_route_swapped_binding (text : String) (vn vg : Option String)
    (script : List REvent) (ht : text ≠ "") :
    (routeSynthesize text vn vg script).selectedVoice =
      some (resolveVoice vg vn) ∧
    (∀ (g tok : String), vg = some g → lookupVoice g = some tok →
      (routeSynthesize text vn vg script).selectedVoice =
        some (JsValue.str tok)) := by
  have hsel : (routeSynthesize text vn vg script).selectedVoice =
      some (resolveVoice vg vn) := by
    simp only [routeSynthesize, synthesizeSpeechRealtime, if_neg ht]
    split <;> rfl
  refine ⟨hsel, ?_⟩
  intro g tok hg htok
  rw [hsel, hg, resolveVoice_name_found g vn tok htok]

/-- Witness for `C8_route_swapped_binding`: a request with
`voiceName = "JennyNeural"` (mapped to `"alloy"`) and
`voiceGender = "Male"` (mapped to `"echo"`) selects `"echo"`. -/
theorem C8_route_swapped_binding_witness :
    (("hi" : String) ≠ "" ∧ lookupVoice "Male" = some "echo") ∧
    (routeSynthesize "hi" (some "JennyNeural") (some "Male") []).selectedVoice =
      some (JsValue.str "echo") := by
  have h := C8_route_swapped_binding "hi" (some "JennyNeural") (some "Male")
    [] (by decide)
  exact ⟨⟨by decide, by decide⟩, h.2 "Male" "echo" rfl (by decide)⟩

/-- `C9`: session configuration sends nothing, so the resolved voice is
never transmitted: for any two voice-argument pairs the synthesize path
sends the identical command sequence (exactly the conversation-item and
response-create commands) and, for a fixed script, returns the identical
audio. -/
theorem C9_voice_not_transmitted (text : String) (vn vg vn' vg' : Option String)
    (script : List REvent) (ht : text ≠ "") :
    (∀ v : JsValue, configureRealtimeSession v = []) ∧
    (synthesizeSpeechRealtime text vn vg script).commands =
      (synthesizeSpeechRealtime text vn' vg' script).commands ∧
    (synthesizeSpeechRealtime text vn vg script).commands =
      [RCommand.conversationItemCreate text, RCommand.responseCreate] ∧
    (synthesizeSpeechRealtime text vn vg script).result =
      (synthesizeSpeechRealtime text vn' vg' script).result := by
  refine ⟨fun _ => rfl, ?_, ?_, ?_⟩ <;>
  · simp only [synthesizeSpeechRealtime, if_neg ht]
    split <;> rfl

/-- Witness for `C9_voice_not_transmitted` at concrete voices. -/
theorem C9_voice_not_transmitted_witness :
    (("hi" : String) ≠ "") ∧
    (synthesizeSpeechRealtime "hi" (some "JennyNeural") none
        [REvent.responseDone]).result =
      (synthesizeSpeechRealtime "hi" (some "DavisNeural") (some "Male")
        [REvent.responseDone]).result ∧
    (synthesizeSpeechRealtime "hi" (some "JennyNeural") none
        [REvent.responseDone]).commands =
      [RCommand.conversationItemCreate "hi", RCommand.responseCreate] := by
  have h := C9_voice_not_transmitted "hi" (some "JennyNeural") none
    (some "DavisNeural") (some "Male") [REvent.responseDone] (by decide)
  exact ⟨by decide, h.2.2.2, h.2.2.1⟩

/-- `C10`: every script that delivers a completion event somewhere but no
audio-delta event (other events may be interleaved freely) makes the
non-streaming synthesize path succeed with exactly the 44-byte WAV
header: data-length field 0 at offset 40 and no PCM payload — the empty
audio result is not treated as an error. -/
theorem C10_empty_audio_success (text : String) (vn vg : Option String)
    (script : List REvent) (ht : text ≠ "")
    (hdone : REvent.responseDone ∈ script)
    (hnodelta : ∀ e ∈ script, isAudioDelta e = false) :
    (synthesizeSpeechRealtime text vn vg script).result =
      Except.ok (frame [] 24000 1 16) ∧
    (frame [] 24000 1 16).length = 44 ∧
    readU32LE (frame [] 24000 1 16) 40 = 0 ∧
    (frame [] 24000 1 16).drop 44 = [] := by
  have h1 : (script.foldl handleTTSEvent
      { audioChunks := [], responseDone := false } : SynthJob).responseDone = true :=
    foldl_responseDone_of_mem script _ hdone
  have h2 : (script.foldl handleTTSEvent
      { audioChunks := [], responseDone := false } : SynthJob).audioChunks = [] :=
    foldl_audioChunks_eq script _ hnodelta
  refine ⟨?_, by decide, by decide, by decide⟩
  simp [synthesizeSpeechRealtime, ht, h1, h2]

/-- Witness for `C10_empty_audio_success` at a concrete script with
non-delta events interleaved around the completion event. -/
theorem C10_empty_audio_success_witness :
    (("hi" : String) ≠ "" ∧
      REvent.responseDone ∈
        [REvent.sessionUpdated, REvent.responseDone,
         REvent.other "rate-limit"] ∧
      (∀ e ∈ [REvent.sessionUpdated, REvent.responseDone,
         REvent.other "rate-limit"], isAudioDelta e = false)) ∧
    (synthesizeSpeechRealtime "hi" none none
        [REvent.sessionUpdated, REvent.responseDone,
         REvent.other "rate-limit"]).result =
      Except.ok (frame [] 24000 1 16) ∧
    (frame [] 24000 1 16).length = 44 := by
  have h := C10_empty_audio_success "hi" none none
    [REvent.sessionUpdated, REvent.responseDone, REvent.other "rate-limit"]
    (by decide) (by decide) (by decide)
  exact ⟨⟨by decide, by decide, by decide⟩, h.1, h.2.1⟩

end VoiceAiChat
